import Mathlib

/-!
Verification of the lap-analytics engine of `pitstop`
(`src/tools/historical/analysis.py`, function `get_analysis`, together with
the result models of `src/models/analysis/analysis.py`).

Modelling conventions (shallow embedding):
* A pandas lap row becomes a `Lap` structure.  The engine only ever tests the
  timestamp columns `PitInTime` / `PitOutTime` for presence (`pd.isna`), so a
  present timestamp is modelled as `some t` and `NaT` as `none`; `LapTime` in
  seconds is modelled as `Option ℚ` (`none` for `NaT`), `Stint` (a nullable
  float holding an integer) as `Option Int`.
* A driver's lap frame is a `List Lap` in collection order (`iloc[0]` is the
  head, `iloc[-1]` the last element).
* `pandas.Series.unique` returns values in order of first appearance; it is
  modelled by `dedupFirstSeen`.
* Statistics in the source are on floats; they are modelled exactly on `ℚ`.
  `Series.mean` / `Series.std` skip missing values (`skipna=True`), hence the
  statistics below are taken over `filterMap LapTime`, the list of present
  times.  `Series.std` uses `ddof=1` (sample standard deviation).
* The sample standard deviation and the coefficient of variation involve a
  square root, which leaves `ℚ`.  Since both are nonnegative (the variance is
  a sum of squares and the guard `avg > 0` holds whenever a coefficient is
  stored) they are represented by their squares: the fields
  `std_deviation_sq` and `coefficient_of_variation_sq` hold the squares of
  the floats `std_deviation` and `coefficient_of_variation` stored by the
  source.  `x ↦ x ^ 2` is an order isomorphism on nonnegative reals, so
  every comparison the source makes on these quantities is mirrored
  faithfully on the squares (`999 ^ 2 = 998001` for the sort key).
* Degenerate corner outside the model: when fewer than two clean laps carry a
  present lap time, `Series.std` returns float `NaN` (and `NaN` is truthy in
  Python, so a `NaN` coefficient would be stored).  Float `NaN` has no
  rational counterpart; the model returns `none` there (Lean's division by
  zero makes the variance `0`).  Theorems that touch the coefficient field
  therefore carry the hypothesis that every clean lap has a present time,
  which keeps them inside the faithfully modelled region.
-/

/-- One row of the laps frame, with exactly the columns `get_analysis` reads.
`PitInTime`/`PitOutTime` are `none` when the pandas value is `NaT`
(`pd.isna`), `LapTime` is the lap duration in seconds (`none` for `NaT`),
`Stint` is the stint identifier (`none` for `NaN`). -/
structure Lap where
  Driver : String
  DriverNumber : String
  LapTime : Option ℚ
  PitInTime : Option ℚ
  PitOutTime : Option ℚ
  IsAccurate : Bool
  Deleted : Bool
  Stint : Option Int
  Compound : Option String
deriving Repr, DecidableEq, Inhabited

/-- Clean-lap filter shared by the `race_pace`, `tire_degradation` and
`consistency` branches (analysis.py lines 67-72, 127-132 and 243-248: the
three boolean masks are textually identical).  Note that the source checks
only the two pit timestamps, `IsAccurate` and `Deleted`; it does **not**
test `LapTime` for presence. -/
def cleanForPace (l : Lap) : Bool :=
  l.PitInTime.isNone && l.PitOutTime.isNone && l.IsAccurate && !l.Deleted

/-- Clean-lap filter of the `stint_summary` branch (analysis.py lines
195-199): same mask but without the `Deleted` condition, and again with no
`LapTime` presence test. -/
def cleanForStint (l : Lap) : Bool :=
  l.PitInTime.isNone && l.PitOutTime.isNone && l.IsAccurate

/-- Arithmetic mean of a list of rationals (`Series.mean` over the present
values; for the empty list the source yields float `NaN` while, by `0 / 0 =
0`, this model yields `0` — callers guard the empty case). -/
def meanQ (xs : List ℚ) : ℚ :=
  xs.sum / (xs.length : ℚ)

/-- Mean packaged as an `Option`: `none` models the float `NaN` that
`Series.mean` returns on an all-missing column. -/
def meanOpt (xs : List ℚ) : Option ℚ :=
  if xs.isEmpty then none else some (meanQ xs)

/-- Minimum of a list (`Series.min` over the present values), `none` when
empty. -/
def minQ (xs : List ℚ) : Option ℚ :=
  match xs with
  | [] => none
  | x :: t => some (t.foldl min x)

/-- Median as computed by `Series.median` over the present values: middle of
the sorted list, or the mean of the two middle entries for even length;
`none` when empty. -/
def medianQ (xs : List ℚ) : Option ℚ :=
  let s := List.insertionSort (fun a b => a ≤ b) xs
  let n := xs.length
  if n = 0 then none
  else if n % 2 = 1 then s.get? (n / 2)
  else
    match s.get? (n / 2 - 1), s.get? (n / 2) with
    | some a, some b => some ((a + b) / 2)
    | _, _ => none

/-- Sample variance (the square of `Series.std`, which uses `ddof=1`), over
the present values.  For fewer than two values the source's `std` is float
`NaN`; division by zero makes this model return `0` there (see the header
note on the `NaN` corner). -/
def sampleVarQ (xs : List ℚ) : ℚ :=
  let m := meanQ xs
  (xs.map (fun x => (x - m) ^ 2)).sum / ((xs.length : ℚ) - 1)

/-- Values of a list in order of first appearance, as returned by
`pandas.Series.unique`. -/
def dedupFirstSeenAux {α : Type} [DecidableEq α] (seen : List α) : List α → List α
  | [] => []
  | a :: t =>
    if a ∈ seen then dedupFirstSeenAux seen t
    else a :: dedupFirstSeenAux (a :: seen) t

/-- First-seen deduplication (`pandas.Series.unique` keeps the order of
appearance). -/
def dedupFirstSeen {α : Type} [DecidableEq α] (l : List α) : List α :=
  dedupFirstSeenAux [] l

/-- The present lap times of the clean laps of a frame, in frame order: the
series `clean_laps['LapTime'].dt.total_seconds()` with missing values
skipped. -/
def cleanTimes (driver_laps : List Lap) : List ℚ :=
  (driver_laps.filter cleanForPace).filterMap (fun l => l.LapTime)

/-- Output row of the `race_pace` branch (`RacePaceData` in
models/analysis/analysis.py).  Time strings are modelled by their rational
second values; `none` models the `NaT` string produced from a `NaN` mean. -/
structure RacePaceData where
  driver : String
  driver_number : String
  average_lap_time : Option ℚ
  median_lap_time : Option ℚ
  fastest_lap_time : Option ℚ
  total_laps : Nat
  clean_laps : Nat
deriving Repr, DecidableEq

/-- Output row of the `tire_degradation` branch (`TireDegradationData`). -/
structure TireDegradationData where
  driver : String
  driver_number : String
  stint : Int
  compound : Option String
  first_lap_time : Option ℚ
  last_lap_time : Option ℚ
  average_lap_time : Option ℚ
  degradation : Option ℚ
  stint_length : Nat
deriving Repr, DecidableEq

/-- Output row of the `stint_summary` branch (`StintSummary`). -/
structure StintSummary where
  driver : String
  driver_number : String
  stint : Int
  compound : Option String
  stint_length : Nat
  average_lap_time : Option ℚ
  fastest_lap_time : Option ℚ
deriving Repr, DecidableEq

/-- Output row of the `consistency` branch (`ConsistencyData`).
`std_deviation_sq` and `coefficient_of_variation_sq` are the squares of the
source's float fields `std_deviation` and `coefficient_of_variation` (see
the header note on the squared representation). -/
structure ConsistencyData where
  driver : String
  driver_number : String
  average_lap_time : Option ℚ
  std_deviation_sq : ℚ
  coefficient_of_variation_sq : Option ℚ
  total_laps : Nat
deriving Repr, DecidableEq

/-- Response envelope (`AnalysisResponse`). -/
structure AnalysisResponse where
  session_name : String
  event_name : String
  year : Int
  analysis_type : String
  race_pace : Option (List RacePaceData) := none
  tire_degradation : Option (List TireDegradationData) := none
  stint_summaries : Option (List StintSummary) := none
  consistency : Option (List ConsistencyData) := none
  total_records : Nat
  driver_filter : Option String := none
deriving Repr, DecidableEq

/-- Body of the `race_pace` loop for one driver (analysis.py lines 62-94):
filter the driver's laps with the pace mask, skip the driver when no clean
lap remains, otherwise aggregate.  `total_laps` counts **all** of the
driver's laps, `clean_laps` only the filtered ones. -/
def racePaceForDriver (driver_laps : List Lap) : Option RacePaceData :=
  let clean := driver_laps.filter cleanForPace
  if 0 < clean.length then
    let times := clean.filterMap (fun l => l.LapTime)
    some
      { driver := (clean.headD default).Driver
        driver_number := (clean.headD default).DriverNumber
        average_lap_time := meanOpt times
        median_lap_time := medianQ times
        fastest_lap_time := minQ times
        total_laps := driver_laps.length
        clean_laps := clean.length }
  else none

/-- Stint identifiers of a driver's laps in order of first appearance:
`driver_laps['Stint'].unique()` with the `pd.notna` guard of the loop body
applied (dropping the null entry before deduplicating preserves the order
of the non-null identifiers). -/
def stintsOf (driver_laps : List Lap) : List Int :=
  dedupFirstSeen (driver_laps.filterMap (fun l => l.Stint))

/-- Laps of one stint, in frame order
(`driver_laps[driver_laps['Stint'] == stint]`). -/
def lapsInStint (driver_laps : List Lap) (s : Int) : List Lap :=
  driver_laps.filter (fun l => l.Stint == some s)

/-- Body of the `tire_degradation` stint loop (analysis.py lines 122-160):
a stint needs at least 2 clean laps; `first`/`last` are the first and last
clean laps in frame order; the `degradation` guard is Python's
`if first_time and last_time`, which also fails on a **zero** lap time. -/
def degRowForStint (s : Int) (stint_laps : List Lap) : Option TireDegradationData :=
  let clean := stint_laps.filter cleanForPace
  if 2 ≤ clean.length then
    let first_lap := clean.headD default
    let last_lap := clean.getLastD default
    let degradation : Option ℚ :=
      match first_lap.LapTime, last_lap.LapTime with
      | some ft, some lt => if ft ≠ 0 ∧ lt ≠ 0 then some (lt - ft) else none
      | _, _ => none
    some
      { driver := first_lap.Driver
        driver_number := first_lap.DriverNumber
        stint := s
        compound := first_lap.Compound
        first_lap_time := first_lap.LapTime
        last_lap_time := last_lap.LapTime
        average_lap_time := meanOpt (clean.filterMap (fun l => l.LapTime))
        degradation := degradation
        stint_length := clean.length }
  else none

/-- Body of the `stint_summary` stint loop (analysis.py lines 190-215):
uses the stint mask (no `Deleted` check) and has no minimum-length gate
beyond non-emptiness. -/
def summaryRowForStint (s : Int) (stint_laps : List Lap) : Option StintSummary :=
  let clean := stint_laps.filter cleanForStint
  if 0 < clean.length then
    let times := clean.filterMap (fun l => l.LapTime)
    some
      { driver := (clean.headD default).Driver
        driver_number := (clean.headD default).DriverNumber
        stint := s
        compound := (clean.headD default).Compound
        stint_length := clean.length
        average_lap_time := meanOpt times
        fastest_lap_time := minQ times }
  else none

/-- Body of the `consistency` loop for one driver (analysis.py lines
238-268).  The stored coefficient is
`float(cv) if cv else None` applied to `cv = (std / avg) * 100 if avg > 0
else None`: Python truthiness turns both `None` **and a zero value** into
`None`, so a coefficient is stored exactly when `avg > 0` and the variance
is nonzero; its square is `var / avg ^ 2 * 10000`. -/
def consistencyForDriver (driver_laps : List Lap) : Option ConsistencyData :=
  let clean := driver_laps.filter cleanForPace
  if 3 ≤ clean.length then
    let times := clean.filterMap (fun l => l.LapTime)
    let avg := meanQ times
    let varQ := sampleVarQ times
    let cvSq : Option ℚ :=
      if 0 < avg then (if varQ = 0 then none else some (varQ / avg ^ 2 * 10000))
      else none
    some
      { driver := (clean.headD default).Driver
        driver_number := (clean.headD default).DriverNumber
        average_lap_time := meanOpt times
        std_deviation_sq := varQ
        coefficient_of_variation_sq := cvSq
        total_laps := clean.length }
  else none

/-- Driver scope of every branch: the singleton filter when a driver was
requested, else `laps['Driver'].unique()` in order of first appearance. -/
def driversToAnalyze (driverFilter : Option String) (laps : List Lap) : List String :=
  match driverFilter with
  | some d => [d]
  | none => dedupFirstSeen (laps.map (fun l => l.Driver))

/-- Laps of one driver (`laps.pick_drivers(drv)`, with the driver filter
modelled as matching the driver code). -/
def lapsOfDriver (laps : List Lap) (d : String) : List Lap :=
  laps.filter (fun l => l.Driver == d)

/-- Result list of the `race_pace` branch. -/
def racePaceList (driverFilter : Option String) (laps : List Lap) : List RacePaceData :=
  (driversToAnalyze driverFilter laps).filterMap
    (fun d => racePaceForDriver (lapsOfDriver laps d))

/-- Result list of the `tire_degradation` branch for one driver: one row per
stint in discovery order, skipping stints whose row is not produced. -/
def tireDegradationForDriver (driver_laps : List Lap) : List TireDegradationData :=
  (stintsOf driver_laps).filterMap
    (fun s => degRowForStint s (lapsInStint driver_laps s))

/-- Result list of the `tire_degradation` branch. -/
def tireDegradationList (driverFilter : Option String) (laps : List Lap) :
    List TireDegradationData :=
  (driversToAnalyze driverFilter laps).flatMap
    (fun d => tireDegradationForDriver (lapsOfDriver laps d))

/-- Result list of the `stint_summary` branch for one driver. -/
def stintSummaryForDriver (driver_laps : List Lap) : List StintSummary :=
  (stintsOf driver_laps).filterMap
    (fun s => summaryRowForStint s (lapsInStint driver_laps s))

/-- Result list of the `stint_summary` branch. -/
def stintSummariesList (driverFilter : Option String) (laps : List Lap) :
    List StintSummary :=
  (driversToAnalyze driverFilter laps).flatMap
    (fun d => stintSummaryForDriver (lapsOfDriver laps d))

/-- Sort key of the `consistency` branch, on the squared representation.
The source key is `x.coefficient_of_variation if x.coefficient_of_variation
else 999`; a stored coefficient is never `0` (truthiness already replaced a
zero by `None`), so the conditional reads the same as an `is-None` test, and
squaring the nonnegative keys (`999 ^ 2 = 998001`) preserves every
comparison. -/
def cvSortKeySq (r : ConsistencyData) : ℚ :=
  match r.coefficient_of_variation_sq with
  | some v => v
  | none => 998001

/-- Result list of the `consistency` branch: per-driver rows in driver
order, then `list.sort(key=...)` — Python's stable ascending sort, modelled
by the (stable) insertion sort on the squared key. -/
def consistencyRows (driverFilter : Option String) (laps : List Lap) :
    List ConsistencyData :=
  let rows := (driversToAnalyze driverFilter laps).filterMap
    (fun d => consistencyForDriver (lapsOfDriver laps d))
  List.insertionSort (fun a b => cvSortKeySq a ≤ cvSortKeySq b) rows

/-- The dispatcher `get_analysis` (analysis.py lines 17-281), after the
session has been loaded: the caller supplies the session/event identity and
the lap frame.  The chain of `if analysis_type == ...:` branches has **no**
`else`, so an unrecognised analysis type falls off the end of the function
and returns Python `None`, modelled as `none`. -/
def getAnalysis (session_name event_name : String) (year : Int) (laps0 : List Lap)
    (analysis_type : String) (driver : Option String) : Option AnalysisResponse :=
  let laps := match driver with
    | some d => lapsOfDriver laps0 d
    | none => laps0
  if analysis_type = "race_pace" then
    let rows := racePaceList driver laps
    some
      { session_name := session_name, event_name := event_name, year := year
        analysis_type := analysis_type, race_pace := some rows
        total_records := rows.length, driver_filter := driver }
  else if analysis_type = "tire_degradation" then
    let rows := tireDegradationList driver laps
    some
      { session_name := session_name, event_name := event_name, year := year
        analysis_type := analysis_type, tire_degradation := some rows
        total_records := rows.length, driver_filter := driver }
  else if analysis_type = "stint_summary" then
    let rows := stintSummariesList driver laps
    some
      { session_name := session_name, event_name := event_name, year := year
        analysis_type := analysis_type, stint_summaries := some rows
        total_records := rows.length, driver_filter := driver }
  else if analysis_type = "consistency" then
    let rows := consistencyRows driver laps
    some
      { session_name := session_name, event_name := event_name, year := year
        analysis_type := analysis_type, consistency := some rows
        total_records := rows.length, driver_filter := driver }
  else none

/-- Number of result rows actually carried by a response, across the four
optional lists (at most one of them is populated per response). -/
def rowCount (r : AnalysisResponse) : Nat :=
  (r.race_pace.getD []).length + (r.tire_degradation.getD []).length +
    (r.stint_summaries.getD []).length + (r.consistency.getD []).length

/-! Concrete lap records used as inputs of the counterexamples and
witnesses below. -/

/-- Lap with no pit activity, accurate, not deleted, lap time 90 s. -/
def cleanLap90 : Lap :=
  { Driver := "AA", DriverNumber := "7", LapTime := some 90, PitInTime := none
    PitOutTime := none, IsAccurate := true, Deleted := false, Stint := some 1
    Compound := some "SOFT" }

/-- Lap that passes both clean filters but carries **no** lap time. -/
def noTimeLap : Lap :=
  { Driver := "NT", DriverNumber := "2", LapTime := none, PitInTime := none
    PitOutTime := none, IsAccurate := true, Deleted := false, Stint := some 1
    Compound := none }

/-- Deleted lap that is otherwise clean (no pit activity, accurate, timed). -/
def deletedLap : Lap :=
  { Driver := "DL", DriverNumber := "4", LapTime := some 88, PitInTime := none
    PitOutTime := none, IsAccurate := true, Deleted := true, Stint := some 1
    Compound := some "HARD" }

/-- Clean lap of driver `ZZ`, stint 1, lap time **zero** seconds. -/
def zeroLap : Lap :=
  { Driver := "ZZ", DriverNumber := "3", LapTime := some 0, PitInTime := none
    PitOutTime := none, IsAccurate := true, Deleted := false, Stint := some 1
    Compound := some "HARD" }

/-- Clean lap of driver `ZZ`, stint 1, lap time 90 s. -/
def lap90s1 : Lap :=
  { Driver := "ZZ", DriverNumber := "3", LapTime := some 90, PitInTime := none
    PitOutTime := none, IsAccurate := true, Deleted := false, Stint := some 1
    Compound := some "HARD" }

/-- Clean lap of driver `ZZ`, stint 2, with an **absent** lap time. -/
def absentLap : Lap :=
  { Driver := "ZZ", DriverNumber := "3", LapTime := none, PitInTime := none
    PitOutTime := none, IsAccurate := true, Deleted := false, Stint := some 2
    Compound := some "MEDIUM" }

/-- Clean lap of driver `ZZ`, stint 2, lap time 90 s. -/
def lap90s2 : Lap :=
  { Driver := "ZZ", DriverNumber := "3", LapTime := some 90, PitInTime := none
    PitOutTime := none, IsAccurate := true, Deleted := false, Stint := some 2
    Compound := some "MEDIUM" }

/-- Clean lap of driver `WD`, stint 5, lap time 90 s. -/
def wlapA : Lap :=
  { Driver := "WD", DriverNumber := "5", LapTime := some 90, PitInTime := none
    PitOutTime := none, IsAccurate := true, Deleted := false, Stint := some 5
    Compound := some "SOFT" }

/-- Clean lap of driver `WD`, stint 5, lap time 89 s (faster than `wlapA`). -/
def wlapB : Lap :=
  { Driver := "WD", DriverNumber := "5", LapTime := some 89, PitInTime := none
    PitOutTime := none, IsAccurate := true, Deleted := false, Stint := some 5
    Compound := some "SOFT" }

/-- Clean laps of driver `CW` with times 90, 91 and 92 s. -/
def c5wlaps : List Lap :=
  [{ Driver := "CW", DriverNumber := "9", LapTime := some 90, PitInTime := none
     PitOutTime := none, IsAccurate := true, Deleted := false, Stint := some 1
     Compound := some "SOFT" },
   { Driver := "CW", DriverNumber := "9", LapTime := some 91, PitInTime := none
     PitOutTime := none, IsAccurate := true, Deleted := false, Stint := some 1
     Compound := some "SOFT" },
   { Driver := "CW", DriverNumber := "9", LapTime := some 92, PitInTime := none
     PitOutTime := none, IsAccurate := true, Deleted := false, Stint := some 1
     Compound := some "SOFT" }]

/-- Consistency row produced by `consistencyForDriver c5wlaps`: mean 91,
sample variance 1, squared coefficient `(100 / 91) ^ 2 = 10000 / 8281`. -/
def c5wrow : ConsistencyData :=
  { driver := "CW", driver_number := "9", average_lap_time := some 91
    std_deviation_sq := 1, coefficient_of_variation_sq := some (10000 / 8281)
    total_laps := 3 }

/-- Clean lap of driver `BB`, stint 1, lap time **zero** seconds (an extreme
but schema-valid record; 99 copies of it drive the coefficient of variation
of driver `BB` above the source's null sentinel 999). -/
def lapBB0 : Lap :=
  { Driver := "BB", DriverNumber := "8", LapTime := some 0, PitInTime := none
    PitOutTime := none, IsAccurate := true, Deleted := false, Stint := some 1
    Compound := some "HARD" }

/-- Clean lap of driver `BB`, stint 1, lap time 100 s. -/
def lapBBT : Lap :=
  { Driver := "BB", DriverNumber := "8", LapTime := some 100, PitInTime := none
    PitOutTime := none, IsAccurate := true, Deleted := false, Stint := some 1
    Compound := some "HARD" }

/-- Session laps: driver `AA` with three identical 90 s clean laps (null
coefficient of variation) followed by driver `BB` with 100 clean laps —
99 zero-time laps and one 100 s lap — whose coefficient of variation is
exactly 1000 (mean 1 s, sample standard deviation 10 s). -/
def lapsC6 : List Lap :=
  [cleanLap90, cleanLap90, cleanLap90] ++ (List.replicate 99 lapBB0 ++ [lapBBT])

/-- Consistency row of driver `AA` in `lapsC6`: variance 0, coefficient
stored as null. -/
def rowAA : ConsistencyData :=
  { driver := "AA", driver_number := "7", average_lap_time := some 90
    std_deviation_sq := 0, coefficient_of_variation_sq := none, total_laps := 3 }

/-- Consistency row of driver `BB` in `lapsC6`: mean 1, sample variance 100,
coefficient of variation 1000 (squared: 1000000). -/
def rowBB : ConsistencyData :=
  { driver := "BB", driver_number := "8", average_lap_time := some 1
    std_deviation_sq := 100, coefficient_of_variation_sq := some 1000000
    total_laps := 100 }

/-- Lap that fails both clean filters (pit-in present). -/
def dirtyLap : Lap :=
  { Driver := "PD", DriverNumber := "6", LapTime := some 95
    PitInTime := some 5000, PitOutTime := none, IsAccurate := false
    Deleted := false, Stint := some 1, Compound := some "SOFT" }

/-- Race-pace row of driver `AA` for the single-lap session `[cleanLap90]`. -/
def wrpRow : RacePaceData :=
  { driver := "AA", driver_number := "7", average_lap_time := some 90
    median_lap_time := some 90, fastest_lap_time := some 90, total_laps := 1
    clean_laps := 1 }

/-- Response produced by `getAnalysis "R" "GP" 2024 [cleanLap90] "race_pace"
none`. -/
def wresp : AnalysisResponse :=
  { session_name := "R", event_name := "GP", year := 2024
    analysis_type := "race_pace", race_pace := some [wrpRow]
    total_records := 1, driver_filter := none }

instance : IsTotal ConsistencyData (fun a b => cvSortKeySq a ≤ cvSortKeySq b) :=
  ⟨fun a b => le_total (cvSortKeySq a) (cvSortKeySq b)⟩

instance : IsTrans ConsistencyData (fun a b => cvSortKeySq a ≤ cvSortKeySq b) :=
  ⟨fun _ _ _ hab hbc => le_trans hab hbc⟩

/-!  Theorems.  -/

/-- C1 (counterexample): the claim states that the pace/consistency
clean-lap predicate is true iff `pit_in_flag` and `pit_out_flag` are false,
`is_accurate` is true, `is_deleted` is false **and `lap_time` is present**.
The source masks (analysis.py 67-72, 127-132, 243-248) never test
`LapTime`: `noTimeLap` satisfies the filter although its lap time is
absent. -/
theorem C1_counterexample :
    ¬ (∀ l : Lap, cleanForPace l = true ↔
        (l.PitInTime = none ∧ l.PitOutTime = none ∧ l.IsAccurate = true ∧
          l.Deleted = false ∧ l.LapTime.isSome = true)) := by
  intro h
  have h2 := (h noTimeLap).mp (by decide)
  exact absurd h2.2.2.2.2 (by decide)

/-- C1 (amended): the pace/consistency clean-lap predicate is true iff
`pit_in_flag` is false, `pit_out_flag` is false, `is_accurate` is true and
`is_deleted` is false — the presence of `lap_time` is not consulted. -/
theorem C1_pace_predicate (l : Lap) :
    cleanForPace l = true ↔
      (l.PitInTime = none ∧ l.PitOutTime = none ∧ l.IsAccurate = true ∧
        l.Deleted = false) := by
  simp [cleanForPace, Option.isNone_iff_eq_none, Bool.not_eq_true',
    Bool.and_eq_true, and_assoc]

/-- C2: requesting an `analysis_type` outside the four supported tags does
**not** fail fast — the `if / elif` chain of `get_analysis` has no `else`
branch, so the function falls off its end and silently returns Python
`None` (here: `none`), violating both its annotated return type and the
spec's fail-fast requirement. -/
theorem C2_unknown_type_returns_none :
    getAnalysis "Race" "Monaco Grand Prix" 2024 [cleanLap90]
      "qualifying_pace" none = none := by
  rfl

/-- C3 (counterexample): a stint of two clean laps whose times are both
present (`some 0` and `some 90`) is emitted, but its `degradation` is
`none` rather than `some (90 - 0)`: Python's `if first_time and last_time`
treats the zero first-lap time as falsy. -/
theorem C3_counterexample :
    (degRowForStint 1 [zeroLap, lap90s1]).isSome = true ∧
    zeroLap.LapTime = some 0 ∧ lap90s1.LapTime = some 90 ∧
    (degRowForStint 1 [zeroLap, lap90s1]).bind (fun r => r.degradation) = none ∧
    (degRowForStint 1 [zeroLap, lap90s1]).bind (fun r => r.degradation) ≠
      some ((90 : ℚ) - 0) := by
  decide

/-- C3 (amended): for every stint with at least 2 clean laps whose first and
last clean-lap times are present **and nonzero**, the emitted row's
degradation is exactly `last - first`, signed and unclamped (negative when
the last clean lap is faster). -/
theorem C3_degradation_signed (s : Int) (stint_laps : List Lap) (ft lt : ℚ)
    (h2 : 2 ≤ (stint_laps.filter cleanForPace).length)
    (hf : ((stint_laps.filter cleanForPace).headD default).LapTime = some ft)
    (hl : ((stint_laps.filter cleanForPace).getLastD default).LapTime = some lt)
    (hf0 : ft ≠ 0) (hl0 : lt ≠ 0) :
    (degRowForStint s stint_laps).bind (fun r => r.degradation) = some (lt - ft) := by
  simp only [degRowForStint]
  rw [if_pos h2]
  simp only [Option.some_bind]
  rw [hf, hl]
  simp [hf0, hl0]

/-- C3 (witness): a concrete stint of two clean laps, 90 s then 89 s, whose
degradation is the negative value `89 - 90`. -/
theorem C3_witness :
    (degRowForStint 5 [wlapA, wlapB]).bind (fun r => r.degradation) =
      some ((89 : ℚ) - 90) :=
  C3_degradation_signed 5 [wlapA, wlapB] 90 89 (by decide) (by decide)
    (by decide) (by decide) (by decide)

/-- C4 (counterexample): the claim states that the stint-summary clean-lap
predicate requires `lap_time` to be present; the source mask (analysis.py
195-199) never tests `LapTime`: `noTimeLap` satisfies it with an absent
time. -/
theorem C4_counterexample :
    ¬ (∀ l : Lap, cleanForStint l = true ↔
        (l.PitInTime = none ∧ l.PitOutTime = none ∧ l.IsAccurate = true ∧
          l.LapTime.isSome = true)) := by
  intro h
  have h2 := (h noTimeLap).mp (by decide)
  exact absurd h2.2.2.2 (by decide)

/-- C4 (amended): the stint-summary clean-lap predicate is true iff
`pit_in_flag` is false, `pit_out_flag` is false and `is_accurate` is true —
neither `is_deleted` nor the presence of `lap_time` is consulted;
consequently a deleted but otherwise clean lap passes the stint-summary
filter while failing the pace/degradation/consistency filter. -/
theorem C4_stint_predicate (l : Lap) :
    (cleanForStint l = true ↔
      (l.PitInTime = none ∧ l.PitOutTime = none ∧ l.IsAccurate = true))
    ∧ (l.Deleted = true → l.PitInTime = none → l.PitOutTime = none →
        l.IsAccurate = true → cleanForStint l = true ∧ cleanForPace l = false) := by
  constructor
  · simp [cleanForStint, Option.isNone_iff_eq_none, Bool.and_eq_true, and_assoc]
  · intro hd hpi hpo ha
    constructor
    · simp [cleanForStint, hpi, hpo, ha]
    · simp [cleanForPace, hd]

/-- C4 (witness): `deletedLap` is deleted but otherwise clean; it passes the
stint-summary filter and fails the pace filter. -/
theorem C4_witness :
    cleanForStint deletedLap = true ∧ cleanForPace deletedLap = false :=
  (C4_stint_predicate deletedLap).2 rfl rfl rfl rfl

/-- C5 (counterexample): a driver with three clean laps of identical time
90 s has mean 90 > 0, yet the stored coefficient of variation is null —
the computed coefficient is `0.0`, which Python truthiness
(`float(cv) if cv else None`) replaces by `None`.  The claim's "null iff
the mean is zero or non-positive" therefore fails. -/
theorem C5_counterexample :
    ((consistencyForDriver [cleanLap90, cleanLap90, cleanLap90]).map
        (fun r => (r.average_lap_time, r.coefficient_of_variation_sq))) =
      some (some 90, none) := by
  simp +decide [consistencyForDriver, cleanForPace, cleanLap90, meanQ, meanOpt,
    sampleVarQ]
  norm_num

/-- C5 (amended): for a driver all of whose clean laps carry a present lap
time, the emitted consistency row's coefficient of variation is null iff
the mean of the clean lap times is non-positive **or the sample standard
deviation is zero** (all clean lap times equal); when stored, the
coefficient is `(std / mean) * 100`, i.e. its square is
`var / mean ^ 2 * 10000`. -/
theorem C5_cv_nullability (laps : List Lap) (r : ConsistencyData)
    (hp : ∀ l ∈ laps, cleanForPace l = true → l.LapTime.isSome = true)
    (hr : consistencyForDriver laps = some r) :
    (r.coefficient_of_variation_sq = none ↔
      (meanQ (cleanTimes laps) ≤ 0 ∨ sampleVarQ (cleanTimes laps) = 0))
    ∧ (∀ v, r.coefficient_of_variation_sq = some v →
        v = sampleVarQ (cleanTimes laps) / (meanQ (cleanTimes laps)) ^ 2 * 10000) := by
  have hr2 : r.coefficient_of_variation_sq =
      (if 0 < meanQ (cleanTimes laps) then
        (if sampleVarQ (cleanTimes laps) = 0 then none
         else some (sampleVarQ (cleanTimes laps) / (meanQ (cleanTimes laps)) ^ 2 *
           10000))
       else none) := by
    simp only [consistencyForDriver, cleanTimes] at hr ⊢
    split at hr
    · rw [Option.some_inj] at hr
      subst hr
      rfl
    · exact absurd hr (by simp)
  rw [hr2]
  constructor
  · split
    · rename_i havg
      split
      · rename_i hvar
        simp [hvar]
      · rename_i hvar
        simp only [reduceCtorEq, false_iff, not_or]
        exact ⟨fun hle => absurd havg (not_lt.mpr hle), hvar⟩
    · rename_i havg
      simp [le_of_not_lt havg]
  · intro v hv
    split at hv
    · split at hv
      · exact absurd hv (by simp)
      · rw [Option.some_inj] at hv
        exact hv.symm
    · exact absurd hv (by simp)

/-- C5 (witness): driver `CW` with clean lap times 90, 91, 92 s: the theorem
applies with mean 91 and sample variance 1, and the stored squared
coefficient is `10000 / 8281`. -/
theorem C5_witness :
    (c5wrow.coefficient_of_variation_sq = none ↔
      (meanQ (cleanTimes c5wlaps) ≤ 0 ∨ sampleVarQ (cleanTimes c5wlaps) = 0))
    ∧ (∀ v, c5wrow.coefficient_of_variation_sq = some v →
        v = sampleVarQ (cleanTimes c5wlaps) / (meanQ (cleanTimes c5wlaps)) ^ 2 *
          10000) :=
  C5_cv_nullability c5wlaps c5wrow (by decide)
    (by simp +decide [consistencyForDriver, cleanForPace, c5wlaps, c5wrow, meanQ,
          meanOpt, sampleVarQ]
        norm_num)

/-- C10: a tire-degradation row can be emitted with a null `degradation`:
with the first clean lap's time absent the row still carries its
`stint_length` and average while `degradation` and `first_lap_time` are
null; with a present but **zero** first-lap time the row again has a null
`degradation` (Python truthiness) while `first_lap_time` stays present. -/
theorem C10_null_degradation_row :
    ((degRowForStint 2 [absentLap, lap90s2]).map
        (fun r => (r.degradation, r.first_lap_time, r.last_lap_time,
          r.stint_length, r.average_lap_time))) =
      some (none, none, some 90, 2, some 90)
    ∧ ((degRowForStint 1 [zeroLap, lap90s1]).map
        (fun r => (r.degradation, r.first_lap_time, r.stint_length,
          r.average_lap_time))) =
      some (none, some 0, 2, some 45) := by
  constructor
  · simp +decide [degRowForStint, cleanForPace, absentLap, lap90s2, meanQ, meanOpt]
    try norm_num
  · simp +decide [degRowForStint, cleanForPace, zeroLap, lap90s1, meanQ, meanOpt]
    try norm_num

/-- Evaluation of driver `AA`'s consistency row in `lapsC6`. -/
theorem consistency_rowAA : consistencyForDriver (lapsOfDriver lapsC6 "AA") = some rowAA := by
  have h : lapsOfDriver lapsC6 "AA" = [cleanLap90, cleanLap90, cleanLap90] := by decide
  rw [h]
  simp +decide [consistencyForDriver, cleanForPace, cleanLap90, meanQ, meanOpt,
    sampleVarQ, rowAA]
  try norm_num

/-- Evaluation of driver `BB`'s consistency row in `lapsC6`. -/
theorem consistency_rowBB : consistencyForDriver (lapsOfDriver lapsC6 "BB") = some rowBB := by
  have h : lapsOfDriver lapsC6 "BB" = List.replicate 99 lapBB0 ++ [lapBBT] := by decide
  rw [h]
  simp +decide [consistencyForDriver, cleanForPace, lapBB0, lapBBT, meanQ, meanOpt,
    sampleVarQ, rowBB, List.filter_append, List.filterMap_append, List.map_append,
    List.sum_append, List.filter_replicate, List.filterMap_replicate,
    List.map_replicate, List.sum_replicate, List.length_append,
    List.length_replicate]
  norm_num

/-- C6 (counterexample): in `lapsC6` driver `BB`'s coefficient of variation
is 1000 (its square is 1000000), which exceeds the source's null sentinel
999 (`sort(key=lambda x: cv if cv else 999)`), so driver `AA`'s
null-coefficient row sorts **before** `BB`'s defined one — refuting "every
null row is placed after every row with a defined value". -/
theorem C6_counterexample :
    consistencyRows none lapsC6 = [rowAA, rowBB]
    ∧ rowAA.coefficient_of_variation_sq = none
    ∧ rowBB.coefficient_of_variation_sq = some 1000000 := by
  refine ⟨?_, by decide, by decide⟩
  have hd : driversToAnalyze none lapsC6 = ["AA", "BB"] := by decide
  simp only [consistencyRows, hd, List.filterMap_cons, List.filterMap_nil,
    consistency_rowAA, consistency_rowBB]
  simp +decide [List.insertionSort, List.orderedInsert, cvSortKeySq, rowAA, rowBB]

/-- C6 (amended): for a session in which every clean lap carries a present
lap time (the region where the rational model is exact — with a time-less
clean lap the source's sample standard deviation, and hence its sort key,
can be float `NaN`, see the header note), the consistency result list is
sorted ascending by the sort key — the coefficient of variation, with a
null coefficient replaced by the sentinel 999 (here: squared keys,
`999 ^ 2 = 998001`); re-sorting the output is a no-op; and a null row
precedes a defined row only when that row's (squared) coefficient is at
least `998001`, i.e. its coefficient is at least 999. -/
theorem C6_sorted_by_key (driverFilter : Option String) (laps : List Lap)
    (hp : ∀ l ∈ laps, cleanForPace l = true → l.LapTime.isSome = true) :
    (consistencyRows driverFilter laps).Pairwise
      (fun a b => cvSortKeySq a ≤ cvSortKeySq b)
    ∧ List.insertionSort (fun a b => cvSortKeySq a ≤ cvSortKeySq b)
        (consistencyRows driverFilter laps) = consistencyRows driverFilter laps
    ∧ (consistencyRows driverFilter laps).Pairwise
        (fun a b => a.coefficient_of_variation_sq = none →
          ∀ v, b.coefficient_of_variation_sq = some v → 998001 ≤ v) := by
  have hs : (consistencyRows driverFilter laps).Pairwise
      (fun a b => cvSortKeySq a ≤ cvSortKeySq b) :=
    List.sorted_insertionSort _ _
  refine ⟨hs, List.Sorted.insertionSort_eq hs, ?_⟩
  refine hs.imp ?_
  intro a b hab ha v hb
  rw [cvSortKeySq, cvSortKeySq, ha, hb] at hab
  exact hab

/-- C6 (witness): every clean lap of `lapsC6` carries a present lap time,
so the amended sortedness/idempotence theorem applies to its consistency
result list. -/
theorem C6_witness :
    (consistencyRows none lapsC6).Pairwise
      (fun a b => cvSortKeySq a ≤ cvSortKeySq b)
    ∧ List.insertionSort (fun a b => cvSortKeySq a ≤ cvSortKeySq b)
        (consistencyRows none lapsC6) = consistencyRows none lapsC6
    ∧ (consistencyRows none lapsC6).Pairwise
        (fun a b => a.coefficient_of_variation_sq = none →
          ∀ v, b.coefficient_of_variation_sq = some v → 998001 ≤ v) :=
  C6_sorted_by_key none lapsC6 (by decide)

/-- Membership in the first-seen deduplication with an accumulator. -/
theorem mem_dedupFirstSeenAux {α : Type} [DecidableEq α] (a : α) :
    ∀ (seen l : List α), (a ∈ dedupFirstSeenAux seen l ↔ (a ∈ l ∧ a ∉ seen)) := by
  intro seen l
  induction l generalizing seen with
  | nil => simp [dedupFirstSeenAux]
  | cons b t ih =>
    simp only [dedupFirstSeenAux]
    by_cases hb : b ∈ seen
    · rw [if_pos hb, ih seen]
      constructor
      · rintro ⟨hat, has⟩
        exact ⟨List.mem_cons_of_mem _ hat, has⟩
      · rintro ⟨hab, has⟩
        rcases List.mem_cons.mp hab with rfl | hat
        · exact absurd hb has
        · exact ⟨hat, has⟩
    · rw [if_neg hb]
      constructor
      · intro h
        rcases List.mem_cons.mp h with rfl | h2
        · exact ⟨List.mem_cons_self _ _, hb⟩
        · rcases (ih (b :: seen)).mp h2 with ⟨hat, has⟩
          exact ⟨List.mem_cons_of_mem _ hat,
            fun hs => has (List.mem_cons_of_mem _ hs)⟩
      · rintro ⟨hab, has⟩
        rcases List.mem_cons.mp hab with rfl | hat
        · exact List.mem_cons_self _ _
        · by_cases hab2 : a = b
          · subst hab2
            exact List.mem_cons_self _ _
          · refine List.mem_cons_of_mem _ ((ih (b :: seen)).mpr ⟨hat, ?_⟩)
            intro hs
            rcases List.mem_cons.mp hs with h3 | h3
            · exact hab2 h3
            · exact has h3

/-- Membership in the first-seen deduplication. -/
theorem mem_dedupFirstSeen {α : Type} [DecidableEq α] (a : α) (l : List α) :
    a ∈ dedupFirstSeen l ↔ a ∈ l := by
  simp [dedupFirstSeen, mem_dedupFirstSeenAux]

/-- The stint field of an emitted degradation row is the stint it was built
for. -/
theorem degRowForStint_stint (s : Int) (sl : List Lap) (r : TireDegradationData)
    (h : degRowForStint s sl = some r) : r.stint = s := by
  revert h
  simp only [degRowForStint]
  split
  · intro h
    rw [Option.some_inj] at h
    subst h
    rfl
  · intro h
    exact absurd h (by simp)

/-- The stint field of an emitted stint-summary row is the stint it was
built for. -/
theorem summaryRowForStint_stint (s : Int) (sl : List Lap) (r : StintSummary)
    (h : summaryRowForStint s sl = some r) : r.stint = s := by
  revert h
  simp only [summaryRowForStint]
  split
  · intro h
    rw [Option.some_inj] at h
    subst h
    rfl
  · intro h
    exact absurd h (by simp)

/-- C7: minimum-sample gating — a driver with exactly 2 clean laps in the
whole session is excluded from the consistency result (which requires at
least 3), while a stint with exactly 2 clean laps does produce a
tire-degradation row. -/
theorem C7_minimum_sample_gating (laps : List Lap) (s : Int) :
    ((laps.filter cleanForPace).length = 2 → consistencyForDriver laps = none)
    ∧ (((lapsInStint laps s).filter cleanForPace).length = 2 →
        ∃ r, r ∈ tireDegradationForDriver laps ∧ r.stint = s) := by
  constructor
  · intro h2
    simp only [consistencyForDriver]
    rw [if_neg (by omega)]
  · intro h2
    have hne : lapsInStint laps s ≠ [] := by
      intro h
      rw [h] at h2
      simp at h2
    obtain ⟨l, hl⟩ := List.exists_mem_of_ne_nil _ hne
    have hl2 := List.mem_filter.mp hl
    have hstint : l.Stint = some s := by
      have := hl2.2
      rwa [beq_iff_eq] at this
    have hs : s ∈ stintsOf laps := by
      rw [stintsOf, mem_dedupFirstSeen]
      exact List.mem_filterMap.mpr ⟨l, hl2.1, hstint⟩
    obtain ⟨r, hr⟩ : ∃ r, degRowForStint s (lapsInStint laps s) = some r := by
      simp only [degRowForStint]
      rw [if_pos (by omega)]
      exact ⟨_, rfl⟩
    exact ⟨r, List.mem_filterMap.mpr ⟨s, hs, hr⟩, degRowForStint_stint s _ r hr⟩

/-- C7 (witness): driver `WD` has exactly 2 clean laps, both in stint 5 —
no consistency row is emitted, while a degradation row for stint 5 is. -/
theorem C7_witness :
    consistencyForDriver [wlapA, wlapB] = none
    ∧ (∃ r, r ∈ tireDegradationForDriver [wlapA, wlapB] ∧ r.stint = 5) :=
  ⟨(C7_minimum_sample_gating [wlapA, wlapB] 5).1 (by decide),
   (C7_minimum_sample_gating [wlapA, wlapB] 5).2 (by decide)⟩

/-- C8: a driver (or stint) with zero clean laps under an analysis type
contributes no row — the per-driver race-pace/degradation/consistency
computations yield nothing when the pace filter leaves no lap, and the
per-driver stint-summary computation yields nothing when the stint filter
leaves no lap — and every response's `total_records` equals the number of
rows actually carried by the response. -/
theorem C8_omission_and_total_records (laps laps0 : List Lap)
    (sn en : String) (y : Int) (t : String) (f : Option String)
    (resp : AnalysisResponse) :
    ((laps.filter cleanForPace) = [] →
      racePaceForDriver laps = none ∧ tireDegradationForDriver laps = []
        ∧ consistencyForDriver laps = none)
    ∧ ((laps.filter cleanForStint) = [] → stintSummaryForDriver laps = [])
    ∧ (getAnalysis sn en y laps0 t f = some resp →
        resp.total_records = rowCount resp) := by
  refine ⟨?_, ?_, ?_⟩
  · intro h
    have hlen : (laps.filter cleanForPace).length = 0 := by rw [h]; rfl
    have hstint : ∀ s : Int, (lapsInStint laps s).filter cleanForPace = [] := by
      intro s
      rw [List.filter_eq_nil_iff] at h ⊢
      intro a ha
      exact h a (List.mem_filter.mp ha).1
    refine ⟨?_, ?_, ?_⟩
    · simp only [racePaceForDriver]
      rw [if_neg (by omega)]
    · simp only [tireDegradationForDriver]
      rw [List.filterMap_eq_nil_iff]
      intro s _
      simp only [degRowForStint]
      rw [if_neg (by rw [hstint s]; simp)]
    · simp only [consistencyForDriver]
      rw [if_neg (by omega)]
  · intro h
    have hstint : ∀ s : Int, (lapsInStint laps s).filter cleanForStint = [] := by
      intro s
      rw [List.filter_eq_nil_iff] at h ⊢
      intro a ha
      exact h a (List.mem_filter.mp ha).1
    simp only [stintSummaryForDriver]
    rw [List.filterMap_eq_nil_iff]
    intro s _
    simp only [summaryRowForStint]
    rw [if_neg (by rw [hstint s]; simp)]
  · intro hg
    simp only [getAnalysis] at hg
    split at hg
    · rw [Option.some_inj] at hg
      subst hg
      simp [rowCount]
    · split at hg
      · rw [Option.some_inj] at hg
        subst hg
        simp [rowCount]
      · split at hg
        · rw [Option.some_inj] at hg
          subst hg
          simp [rowCount]
        · split at hg
          · rw [Option.some_inj] at hg
            subst hg
            simp [rowCount]
          · exact absurd hg (by simp)

/-- C8 (witness): the lap `dirtyLap` fails both filters, so a driver with
only that lap contributes no row under any analysis type; and the concrete
race-pace response `wresp` has `total_records = 1 = rowCount`. -/
theorem C8_witness :
    (racePaceForDriver [dirtyLap] = none ∧ tireDegradationForDriver [dirtyLap] = []
      ∧ consistencyForDriver [dirtyLap] = none)
    ∧ stintSummaryForDriver [dirtyLap] = []
    ∧ wresp.total_records = rowCount wresp :=
  ⟨(C8_omission_and_total_records [dirtyLap] [cleanLap90] "R" "GP" 2024
      "race_pace" none wresp).1 (by decide),
   (C8_omission_and_total_records [dirtyLap] [cleanLap90] "R" "GP" 2024
      "race_pace" none wresp).2.1 (by decide),
   (C8_omission_and_total_records [dirtyLap] [cleanLap90] "R" "GP" 2024
      "race_pace" none wresp).2.2
     (by simp +decide [getAnalysis, racePaceList, driversToAnalyze,
           dedupFirstSeen, dedupFirstSeenAux, lapsOfDriver, racePaceForDriver,
           cleanForPace, cleanLap90, meanQ, meanOpt, minQ, medianQ, wresp,
           wrpRow, List.insertionSort, List.orderedInsert]
         try norm_num)⟩

/-- Mapping a left inverse of the row constructor over a `filterMap`
recovers the filter of the emitting keys. -/
theorem map_filterMap_of_inv {α β : Type} (f : α → Option β) (g : β → α)
    (l : List α) (hfg : ∀ a r, f a = some r → g r = a) :
    (l.filterMap f).map g = l.filter (fun a => (f a).isSome) := by
  induction l with
  | nil => simp
  | cons a t ih =>
    cases hfa : f a with
    | none => simp [List.filterMap_cons, hfa, List.filter_cons, ih]
    | some r => simp [List.filterMap_cons, hfa, List.filter_cons, hfg a r hfa, ih]

/-- First-seen deduplication lists values in strictly increasing order of
their first index in the scanned list. -/
theorem pairwise_findIdx_dedupAux {α : Type} [DecidableEq α] :
    ∀ (seen xs : List α), (dedupFirstSeenAux seen xs).Pairwise
      (fun a b => xs.findIdx (fun c => c == a) < xs.findIdx (fun c => c == b)) := by
  intro seen xs
  induction xs generalizing seen with
  | nil => simp [dedupFirstSeenAux]
  | cons x t ih =>
    simp only [dedupFirstSeenAux]
    split
    · rename_i hx
      refine (ih seen).imp_of_mem ?_
      intro a b ha hb hlt
      have ha2 := (mem_dedupFirstSeenAux a seen t).mp ha
      have hb2 := (mem_dedupFirstSeenAux b seen t).mp hb
      have hax : (x == a) = false :=
        beq_eq_false_iff_ne.mpr (fun h => ha2.2 (h ▸ hx))
      have hbx : (x == b) = false :=
        beq_eq_false_iff_ne.mpr (fun h => hb2.2 (h ▸ hx))
      simp only [List.findIdx_cons, hax, hbx, cond_false]
      omega
    · rename_i hx
      rw [List.pairwise_cons]
      constructor
      · intro b hb
        have hb2 := (mem_dedupFirstSeenAux b (x :: seen) t).mp hb
        have hbx : (x == b) = false :=
          beq_eq_false_iff_ne.mpr (fun h => hb2.2 (h ▸ List.mem_cons_self x seen))
        simp only [List.findIdx_cons, hbx, cond_false, beq_self_eq_true, cond_true]
        omega
      · refine (ih (x :: seen)).imp_of_mem ?_
        intro a b ha hb hlt
        have ha2 := (mem_dedupFirstSeenAux a (x :: seen) t).mp ha
        have hb2 := (mem_dedupFirstSeenAux b (x :: seen) t).mp hb
        have hax : (x == a) = false :=
          beq_eq_false_iff_ne.mpr (fun h => ha2.2 (h ▸ List.mem_cons_self x seen))
        have hbx : (x == b) = false :=
          beq_eq_false_iff_ne.mpr (fun h => hb2.2 (h ▸ List.mem_cons_self x seen))
        simp only [List.findIdx_cons, hax, hbx, cond_false]
        omega

/-- Transport of first-index comparisons from the stint-value sequence
(`filterMap Stint`) back to lap positions: if stint `a`'s first value
occurrence precedes stint `b`'s, then the first lap carrying `a` precedes
the first lap carrying `b`. -/
theorem findIdx_stint_lift (a b : Int) :
    ∀ laps : List Lap,
      (laps.filterMap (fun l => l.Stint)).findIdx (fun c => c == a) <
        (laps.filterMap (fun l => l.Stint)).findIdx (fun c => c == b) →
      laps.findIdx (fun l => l.Stint == some a) <
        laps.findIdx (fun l => l.Stint == some b) := by
  intro laps
  induction laps with
  | nil =>
    intro h
    exact absurd h (by simp)
  | cons l0 t ih =>
    intro h
    cases hs : l0.Stint with
    | none =>
      rw [List.filterMap_cons, hs] at h
      have hp1 : (l0.Stint == some a) = false := by rw [hs]; rfl
      have hp2 : (l0.Stint == some b) = false := by rw [hs]; rfl
      simp only [List.findIdx_cons, hp1, hp2, cond_false]
      exact Nat.succ_lt_succ (ih h)
    | some v =>
      rw [List.filterMap_cons, hs] at h
      by_cases hvb : v = b
      · subst hvb
        have h0 : ((v :: t.filterMap (fun l => l.Stint)).findIdx
            (fun c => c == v)) = 0 := by
          simp [List.findIdx_cons]
        rw [h0] at h
        exact absurd h (Nat.not_lt_zero _)
      · have hvbf : (v == b) = false := beq_eq_false_iff_ne.mpr hvb
        have hp2 : (l0.Stint == some b) = false := by
          rw [hs]
          have : (some v == some b) = (v == b) := rfl
          rw [this, hvbf]
        by_cases hva : v = a
        · subst hva
          have hp1 : (l0.Stint == some v) = true := by rw [hs]; simp
          simp only [List.findIdx_cons, hp1, hp2, cond_true, cond_false]
          exact Nat.succ_pos _
        · have hvaf : (v == a) = false := beq_eq_false_iff_ne.mpr hva
          have hp1 : (l0.Stint == some a) = false := by
            rw [hs]
            have : (some v == some a) = (v == a) := rfl
            rw [this, hvaf]
          simp only [List.findIdx_cons, hvaf, hvbf, cond_false] at h
          simp only [List.findIdx_cons, hp1, hp2, cond_false]
          exact Nat.succ_lt_succ (ih (by omega))

/-- C9: per driver, degradation and stint-summary rows are emitted in
discovery order of their stint identifier — the row lists' stint fields are
the stint sequence in order of first appearance (restricted to the stints
that emit a row), and that sequence is strictly increasing in the position
of each stint's first-seen lap in the driver's lap collection.  The
concrete conjunct shows the order is **not** the numeric order of the
identifiers: a collection whose laps carry stint 2 before stint 1 yields
`[2, 1]`. -/
theorem C9_stint_discovery_order (laps : List Lap) :
    ((tireDegradationForDriver laps).map (fun r => r.stint) =
      (stintsOf laps).filter
        (fun s => (degRowForStint s (lapsInStint laps s)).isSome))
    ∧ ((stintSummaryForDriver laps).map (fun r => r.stint) =
      (stintsOf laps).filter
        (fun s => (summaryRowForStint s (lapsInStint laps s)).isSome))
    ∧ (stintsOf laps).Pairwise (fun a b =>
        laps.findIdx (fun l => l.Stint == some a) <
          laps.findIdx (fun l => l.Stint == some b))
    ∧ stintsOf [lap90s2, lap90s2, lap90s1, lap90s1] = [2, 1] := by
  refine ⟨?_, ?_, ?_, by decide⟩
  · exact map_filterMap_of_inv _ _ _ (fun s r h => degRowForStint_stint s _ r h)
  · exact map_filterMap_of_inv _ _ _ (fun s r h => summaryRowForStint_stint s _ r h)
  · have hpair := pairwise_findIdx_dedupAux ([] : List Int)
      (laps.filterMap (fun l => l.Stint))
    exact hpair.imp (fun hab => findIdx_stint_lift _ _ laps hab)
